import Mathlib

/-!
Verification of the dependency-chain type system of `src/consume.h`
(proposal p0750r0: `dependency`, `dependent<T>`, `dependent_ptr<T>` and the
`consume_load` family).

The header under `src/` contains the class declarations, member initializers
and behavioural comments, but the three implementation headers it includes
(`consume_dependency_impl.h`, `consume_dependent_ptr_impl.h`,
`consume_load_impl.h`) are not part of `src/`.  Structure layouts, deleted
and defaulted constructors and member initializers below are translated
directly from the declarations in `src/consume.h`; operation bodies that the
missing implementation headers would supply are modelled from the spec, and
each such definition says so in its doc comment.

The model makes the ghost bookkeeping of the spec explicit: a dependency
carries the set of chain-origin (consume-load) events it covers, and a
`dependent_ptr` carries, besides its single runtime pointer field, a ghost
`chain` that is `some d` for a live instance and `none` for a broken one.
-/

/-- Ghost provenance: the set of chain-origin (consume-load) event ids a
dependency covers.  This is the "ordering guarantee set" of the spec. -/
abbrev Prov : Type := Finset Nat

/-- Pointers are modelled as plain addresses. -/
abbrev Ptr : Type := Nat

/-- The null pointer. -/
def nullptr : Ptr := 0

/-- From `src/consume.h` lines 260-282: class `dependency`.  Its runtime
representation is a single exposition-only `dependency_type dep` field; the
model records instead the ghost provenance the token stands for (the set of
load events it implies ordering with). -/
structure dependency where
  dep : Prov
deriving DecidableEq

/-- The spec's name for the dependency token type; also used to refer to it
unambiguously inside the namespaces of the other types. -/
abbrev Dependency : Type := dependency

/-- Modelled from the spec (the body of `dependency::operator|` lives in the
missing `consume_dependency_impl.h`): combining two dependencies produces a
dependency implying both inputs, so the ghost guarantee sets are merged. -/
def dependency.combine (a b : dependency) : dependency :=
  ⟨a.dep ∪ b.dep⟩

/-- The ordering-guarantee set a dependency implies: the set of chain-origin
events it covers. -/
def dependency.guarantees (d : dependency) : Prov :=
  d.dep

/-- Modelled from the spec (note at `src/consume.h` line 258: dependencies are
false dependencies): the token's numeric contribution when mixed into an
integer is zero, so mixing can never change the integer's value. -/
def dependency.bits (_ : dependency) : Nat := 0

/-- Modelled from the spec: `template<typename T> dependency(T)` captures a
dependency on a value; the ghost parameter is that value's provenance. -/
def dependency.fromValue (prov : Prov) : dependency :=
  ⟨prov⟩

/-- From `src/consume.h` lines 158-166: `dependent<T>` pairs a value with its
dependency.  `dependent() = delete`, so there is no default state: the
structure has exactly the two fields and no other constructor. -/
structure dependent (T : Type) where
  value : T
  dependency : dependency

/-- From `src/consume.h` line 164: the explicit value-plus-dependency
constructor `dependent(T value, Dependency dependency)`. -/
def dependent.mkPair {T : Type} (v : T) (d : Dependency) : dependent T :=
  ⟨v, d⟩

/-- From `src/consume.h` line 165: the value-only constructor
`dependent(T value)`, whose dependency is built from the value itself; the
ghost parameter is the value's provenance. -/
def dependent.mkValue {T : Type} (v : T) (prov : Prov) : dependent T :=
  ⟨v, dependency.fromValue prov⟩

/-- From `src/consume.h` lines 176-251: `dependent_ptr<T>`.  The runtime state
is the single field `T* ptr { nullptr }` (line 250); `chain` is the ghost
live/broken bookkeeping of the spec: `some d` means live with chain `d`,
`none` means broken. -/
structure dependent_ptr (T : Type) where
  ptr : Ptr
  chain : Option dependency
deriving DecidableEq

/-- A `dependent_ptr` is live when its ghost chain is present. -/
def dependent_ptr.isLive {T : Type} (p : dependent_ptr T) : Bool :=
  p.chain.isSome

/-- Modelled from the spec (`dependency dependency() const`, whose body is in
the missing implementation header): the pure dependency of a pointer; a
broken pointer yields the vacuous dependency covering no events. -/
def dependent_ptr.dependencyOf {T : Type} (p : dependent_ptr T) : dependency :=
  p.chain.getD ⟨∅⟩

/-- From `src/consume.h` lines 182 and 250: `dependent_ptr() = default` with
member initializer `T* ptr { nullptr }`; the comment at line 181 says the
result carries no dependency yet, so the ghost chain is absent. -/
def dependent_ptr.mkDefault (T : Type) : dependent_ptr T :=
  ⟨nullptr, none⟩

/-- From `src/consume.h` line 183 with the comment at line 181: constructing
from a raw pointer attaches no dependency. -/
def dependent_ptr.ofRaw (T : Type) (p : Ptr) : dependent_ptr T :=
  ⟨p, none⟩

/-- Modelled from the spec (`T* value() const`, body missing): returns the
raw pointer value. -/
def dependent_ptr.value {T : Type} (p : dependent_ptr T) : Ptr :=
  p.ptr

/-- Modelled from the spec (`operator=(T*)`, body missing; comment at
`src/consume.h` lines 198-199: assigning a non-dependent right-hand side
breaks the left-hand side's chain): the stored pointer becomes the assigned
raw pointer and any prior ghost chain is discarded. -/
def dependent_ptr.assignRaw {T : Type} (_self : dependent_ptr T) (p : Ptr) :
    dependent_ptr T :=
  ⟨p, none⟩

/-- Modelled from the spec (`operator=(std::nullptr_t)`, body missing): like
a raw-pointer assignment with the null pointer. -/
def dependent_ptr.assignNull {T : Type} (_self : dependent_ptr T) :
    dependent_ptr T :=
  ⟨nullptr, none⟩

/-- Modelled from the spec (copy constructor, body missing; comment at
`src/consume.h` lines 192-193: copy construction extends the right-hand side
chain to cover both dependent pointers).  The source is taken by constant
reference, so the result records both the new object and the source's state
after the operation. -/
def dependent_ptr.copyConstruct {T : Type} (src : dependent_ptr T) :
    dependent_ptr T × dependent_ptr T :=
  (⟨src.ptr, src.chain⟩, src)

/-- Modelled from the spec (`operator=(const dependent_ptr&)`, body missing;
comment at `src/consume.h` lines 203-205: a dependent right-hand side extends
the chain to cover the assignment).  Returns the new left-hand side and the
source's state after the operation. -/
def dependent_ptr.copyAssign {T : Type} (_self src : dependent_ptr T) :
    dependent_ptr T × dependent_ptr T :=
  (⟨src.ptr, src.chain⟩, src)

/-- Modelled from the spec (`dependent<uintptr_t> to_uintptr_t() const`, body
missing; comment at `src/consume.h` lines 208-211: converting a dependent
pointer to an integer extends the chain to the result): the integer keeps the
pointer's dependency. -/
def dependent_ptr.to_uintptr_t {T : Type} (p : dependent_ptr T) :
    dependent Nat :=
  ⟨p.ptr, p.dependencyOf⟩

/-- Modelled from the spec (`dependent_ptr(dependent<uintptr_t>)`, body
missing; listed under the with-dependency constructors at `src/consume.h`
lines 186-189): reinterprets the tagged integer and keeps its dependency, so
the result is live. -/
def dependent_ptr.ofDepUintptr (T : Type) (du : dependent Nat) :
    dependent_ptr T :=
  ⟨du.value, some du.dependency⟩

/-- From `src/consume.h` line 224 with the comment at lines 221-223:
`T* operator->() const` returns a raw pointer, so the access it enables does
not extend the chain to the accessed member's value. -/
def dependent_ptr.arrowOp {T : Type} (p : dependent_ptr T) : Ptr :=
  p.ptr

/-- Modelled from the spec (`dependent<T> operator*() const`, body missing;
comment at `src/consume.h` line 228: dereferencing extends the chain to the
resulting value).  Memory is passed explicitly as a heap. -/
def dependent_ptr.star {T : Type} (p : dependent_ptr T) (h : Ptr → T) :
    dependent T :=
  ⟨h p.ptr, p.dependencyOf⟩

/-- From `src/consume.h` lines 248-251: the exposition-only runtime
representation of `dependent_ptr<T>` — exactly one raw-pointer field. -/
structure dependent_ptrRep (T : Type) where
  ptr : Ptr

/-- Erasure of the model state to the runtime representation: only the
pointer field is stored at runtime; the ghost chain is erased. -/
def dependent_ptr.rep {T : Type} (p : dependent_ptr T) : dependent_ptrRep T :=
  ⟨p.ptr⟩

/-- An atomic storage location (the external atomic collaborator): the value
it currently stores. -/
structure atomic (T : Type) where
  val : T

/-- Modelled from the spec: a plain relaxed (non-acquire) load returns the
location's current value. -/
def relaxed_load {T : Type} (a : atomic T) : T :=
  a.val

/-- Modelled from the spec (`consume_load(const std::atomic<T*>&)`, body in
the missing `consume_load_impl.h`): performs a relaxed load and returns a
live dependent pointer whose chain originates at this load event `ev`. -/
def consume_load_ptr (T : Type) (a : atomic Ptr) (ev : Nat) :
    dependent_ptr T :=
  ⟨a.val, some ⟨{ev}⟩⟩

/-- Modelled from the spec (`consume_load(const std::atomic<T>&)`, body
missing): performs a relaxed load and returns a dependent value whose
dependency originates at this load event `ev`. -/
def consume_load_val {T : Type} (a : atomic T) (ev : Nat) : dependent T :=
  ⟨a.val, ⟨{ev}⟩⟩

/-- A concrete pointee type with one field, for the member-access claims. -/
structure S where
  f : Nat
deriving DecidableEq

/-- The access path `p->f`: `operator->` yields a raw `S*`, and the field is
then read through that raw pointer, so the result is an ordinary value with
no dependency attached. -/
def arrowAccessF (h : Ptr → S) (p : dependent_ptr S) : Nat :=
  (h p.arrowOp).f

/-- Modelled from the spec: the access path `(*p).f` — field access on the
live dependent value returned by `operator*` keeps carrying its dependency,
so the result is a dependent value. -/
def starAccessF (h : Ptr → S) (p : dependent_ptr S) : dependent Nat :=
  ⟨(p.star h).value.f, (p.star h).dependency⟩

/-- Modelled from the spec (`friend uintptr_t operator|(dependency,
uintptr_t)`, body missing): mixing a dependency into an unsigned integer ors
in the token's runtime bits. -/
def orDepUptr (d : dependency) (x : Nat) : Nat :=
  Nat.lor d.bits x

/-- Modelled from the spec (`friend uintptr_t operator|(uintptr_t,
dependency)`, body missing): the symmetric unsigned mixing. -/
def orUptrDep (x : Nat) (d : dependency) : Nat :=
  Nat.lor x d.bits

/-- Modelled from the spec (`friend intptr_t operator|(dependency,
intptr_t)`, body missing): the signed mixing. -/
def orDepIptr (d : dependency) (x : Int) : Int :=
  Int.lor (Int.ofNat d.bits) x

/-- Modelled from the spec (`friend intptr_t operator|(intptr_t,
dependency)`, body missing): the symmetric signed mixing. -/
def orIptrDep (x : Int) (d : dependency) : Int :=
  Int.lor x (Int.ofNat d.bits)

/-- Claim C1: for every atomic location currently storing a value,
`consume_load` returns a live dependent wrapper whose value (raw pointer for
the pointer form, carried value for the value form) equals a plain relaxed
load of the same location, and the wrapper carries the dependency of the
load event. -/
theorem consume_load_value_fidelity (T U : Type) (a : atomic Ptr)
    (b : atomic U) (ev : Nat) :
    ((consume_load_ptr T a ev).value = relaxed_load a ∧
      (consume_load_ptr T a ev).isLive = true) ∧
    ((consume_load_val b ev).value = relaxed_load b ∧
      (consume_load_val b ev).dependency = ⟨{ev}⟩) :=
  ⟨⟨rfl, rfl⟩, rfl, rfl⟩

/-- Claim C2: assigning a raw pointer or the null pointer into any
`dependent_ptr`, live or broken, always yields a broken instance: the stored
pointer becomes the assigned one and the ghost chain is gone. -/
theorem raw_assignment_breaks (T : Type) (self : dependent_ptr T) (q : Ptr) :
    ((self.assignRaw q).isLive = false ∧ (self.assignRaw q).chain = none ∧
      (self.assignRaw q).ptr = q) ∧
    (self.assignNull.isLive = false ∧ self.assignNull.chain = none ∧
      self.assignNull.ptr = nullptr) :=
  ⟨⟨rfl, rfl, rfl⟩, rfl, rfl, rfl⟩

/-- Claim C3: for a live `dependent_ptr S`, the member access `p->f` yields
an ordinary value equal to the value of `(*p).f`, and is computed through
the raw pointer alone (a broken pointer at the same address gives the same
result), while `(*p).f` is live: it carries exactly the pointer's own
dependency. -/
theorem member_access_no_extend (h : Ptr → S) (p : dependent_ptr S)
    (_hl : p.isLive = true) :
    arrowAccessF h p = (starAccessF h p).value ∧
    (starAccessF h p).dependency = p.dependencyOf ∧
    arrowAccessF h ⟨p.ptr, none⟩ = arrowAccessF h p :=
  ⟨rfl, rfl, rfl⟩

/-- Witness for C3 at a concrete live pointer and heap. -/
theorem member_access_no_extend_wit :
    (⟨7, some ⟨{1}⟩⟩ : dependent_ptr S).isLive = true ∧
    (arrowAccessF (fun _ => ⟨42⟩) ⟨7, some ⟨{1}⟩⟩ =
        (starAccessF (fun _ => ⟨42⟩) ⟨7, some ⟨{1}⟩⟩).value ∧
      (starAccessF (fun _ => ⟨42⟩) ⟨7, some ⟨{1}⟩⟩).dependency =
        (⟨7, some ⟨{1}⟩⟩ : dependent_ptr S).dependencyOf ∧
      arrowAccessF (fun _ => ⟨42⟩) ⟨7, none⟩ =
        arrowAccessF (fun _ => ⟨42⟩) ⟨7, some ⟨{1}⟩⟩) :=
  ⟨by decide, member_access_no_extend (fun _ => ⟨42⟩) ⟨7, some ⟨{1}⟩⟩ (by decide)⟩

/-- Claim C4: copy-constructing or copy-assigning from a live
`dependent_ptr a` yields a live result with the same pointer, and leaves
`a`'s own state — liveness and pointer value — unchanged. -/
theorem copy_extends_and_preserves_source (T : Type) (a : dependent_ptr T)
    (hl : a.isLive = true) :
    ((a.copyConstruct.1.isLive = true ∧ a.copyConstruct.1.ptr = a.ptr) ∧
      a.copyConstruct.2 = a) ∧
    ∀ self : dependent_ptr T,
      ((self.copyAssign a).1.isLive = true ∧
        (self.copyAssign a).1.ptr = a.ptr) ∧
      (self.copyAssign a).2 = a := by
  refine ⟨⟨⟨?_, rfl⟩, rfl⟩, fun self => ⟨⟨?_, rfl⟩, rfl⟩⟩ <;>
    simpa [dependent_ptr.copyConstruct, dependent_ptr.copyAssign,
      dependent_ptr.isLive] using hl

/-- Witness for C4 at a concrete live pointer. -/
theorem copy_extends_and_preserves_source_wit :
    (⟨5, some ⟨{2}⟩⟩ : dependent_ptr Unit).isLive = true ∧
    ((((⟨5, some ⟨{2}⟩⟩ : dependent_ptr Unit).copyConstruct.1.isLive = true ∧
        (⟨5, some ⟨{2}⟩⟩ : dependent_ptr Unit).copyConstruct.1.ptr =
          (⟨5, some ⟨{2}⟩⟩ : dependent_ptr Unit).ptr) ∧
      (⟨5, some ⟨{2}⟩⟩ : dependent_ptr Unit).copyConstruct.2 =
        ⟨5, some ⟨{2}⟩⟩) ∧
    ∀ self : dependent_ptr Unit,
      ((self.copyAssign ⟨5, some ⟨{2}⟩⟩).1.isLive = true ∧
        (self.copyAssign ⟨5, some ⟨{2}⟩⟩).1.ptr =
          (⟨5, some ⟨{2}⟩⟩ : dependent_ptr Unit).ptr) ∧
      (self.copyAssign ⟨5, some ⟨{2}⟩⟩).2 = ⟨5, some ⟨{2}⟩⟩) :=
  ⟨by decide, copy_extends_and_preserves_source Unit ⟨5, some ⟨{2}⟩⟩ (by decide)⟩

/-- Claim C5: dependency combination is associative, commutative and
idempotent on the implied ordering-guarantee sets, and the combination of
two dependencies implies a dependency on both inputs. -/
theorem combine_assoc_comm_idem (a b c : dependency) :
    (a.combine (b.combine c)).guarantees =
      ((a.combine b).combine c).guarantees ∧
    (a.combine b).guarantees = (b.combine a).guarantees ∧
    (a.combine a).guarantees = a.guarantees ∧
    a.guarantees ⊆ (a.combine b).guarantees ∧
    b.guarantees ⊆ (a.combine b).guarantees := by
  refine ⟨?_, ?_, ?_, ?_, ?_⟩
  · exact (Finset.union_assoc a.dep b.dep c.dep).symm
  · exact Finset.union_comm a.dep b.dep
  · exact Finset.union_self a.dep
  · exact Finset.subset_union_left
  · exact Finset.subset_union_right

/-- Claim C6: converting a live `dependent_ptr` to a dependent unsigned
integer and constructing a new `dependent_ptr` from that dependent integer
yields the original pointer back, still live. -/
theorem to_uintptr_round_trip (T : Type) (p : dependent_ptr T)
    (hl : p.isLive = true) :
    dependent_ptr.ofDepUintptr T p.to_uintptr_t = p ∧
    (dependent_ptr.ofDepUintptr T p.to_uintptr_t).isLive = true := by
  obtain ⟨q, c⟩ := p
  cases c with
  | none => simp [dependent_ptr.isLive] at hl
  | some d =>
    simp [dependent_ptr.ofDepUintptr, dependent_ptr.to_uintptr_t,
      dependent_ptr.dependencyOf, dependent_ptr.isLive]

/-- Witness for C6 at a concrete live pointer. -/
theorem to_uintptr_round_trip_wit :
    (⟨9, some ⟨{3}⟩⟩ : dependent_ptr Unit).isLive = true ∧
    (dependent_ptr.ofDepUintptr Unit
        (⟨9, some ⟨{3}⟩⟩ : dependent_ptr Unit).to_uintptr_t =
        ⟨9, some ⟨{3}⟩⟩ ∧
      (dependent_ptr.ofDepUintptr Unit
          (⟨9, some ⟨{3}⟩⟩ : dependent_ptr Unit).to_uintptr_t).isLive =
        true) :=
  ⟨by decide, to_uintptr_round_trip Unit ⟨9, some ⟨{3}⟩⟩ (by decide)⟩

/-- Claim C7: `dependent<T>` has no default state: a dependent value cannot
exist without a value of `T` (so `dependent Empty` is uninhabited — a default
constructor would be rejected), and every dependent value is exactly an
explicit value-plus-dependency pair. -/
theorem dependent_no_default :
    IsEmpty (dependent Empty) ∧
    ∀ (T : Type) (x : dependent T), x = dependent.mkPair x.value x.dependency :=
  ⟨⟨fun x => x.value.elim⟩, fun _ _ => rfl⟩

/-- Claim C8: the runtime representation of `dependent_ptr` holds exactly one
raw-pointer field — projecting it to the pointer is a bijection — and the
ghost live/broken distinction is not part of it: a live and a broken
instance can share the same runtime representation. -/
theorem dependent_ptr_single_field :
    Function.Bijective (fun r : dependent_ptrRep Unit => r.ptr) ∧
    ∃ p q : dependent_ptr Unit,
      p.isLive = true ∧ q.isLive = false ∧ p.rep = q.rep :=
  ⟨⟨fun a b hab => by cases a; cases b; simpa using hab,
      fun n => ⟨⟨n⟩, rfl⟩⟩,
    ⟨0, some ⟨∅⟩⟩, ⟨0, none⟩, rfl, rfl, rfl⟩

/-- Claim C9: `dependent_ptr<T>` is default-constructible (even when the
pointee type is uninhabited, unlike `dependent`), and the default-constructed
instance is broken with the null pointer as its raw value. -/
theorem default_ptr_broken_null :
    Nonempty (dependent_ptr Empty) ∧
    ∀ T : Type,
      (dependent_ptr.mkDefault T).isLive = false ∧
      (dependent_ptr.mkDefault T).ptr = nullptr ∧
      (dependent_ptr.mkDefault T).value = nullptr :=
  ⟨⟨dependent_ptr.mkDefault Empty⟩, fun _ => ⟨rfl, rfl, rfl⟩⟩

/-- Claim C10: mixing a dependency into an unsigned or signed integer, on
either side, preserves the numeric value: the dependency is a false
dependency affecting only ordering. -/
theorem tagging_preserves_value (d : dependency) (x : Nat) (y : Int) :
    orDepUptr d x = x ∧ orUptrDep x d = x ∧
    orDepIptr d y = y ∧ orIptrDep y d = y := by
  refine ⟨?_, ?_, ?_, ?_⟩
  · cases x <;> simp [orDepUptr, dependency.bits, Nat.lor, Nat.bitwise]
  · cases x <;> simp [orUptrDep, dependency.bits, Nat.lor, Nat.bitwise]
  · cases y <;> simp [orDepIptr, dependency.bits, Int.lor, Nat.ldiff,
      Nat.bitwise]
  · cases y <;> simp [orIptrDep, dependency.bits, Int.lor, Nat.ldiff,
      Nat.bitwise]
